import Mathlib

/-!
Verification of the Railway template metrics collector
(`collect_metrics.py`), shallowly embedded in Lean 4.

Timestamps are modelled as integer seconds (the SQL `INTERVAL`
arithmetic on `timestamptz` values is exact second arithmetic).
Monetary amounts are integers in minor currency units (cents).
Percentage ratios are rationals; Python float division is modelled
exactly over `ℚ`.
-/

namespace Gauge

/-- Decidable equality on `Except`, so that concrete runs of the
fallible writer computations can be checked by `decide`. -/
instance exceptDecidableEq {ε α : Type} [DecidableEq ε] [DecidableEq α] :
    DecidableEq (Except ε α) := fun x y =>
  match x, y with
  | Except.ok a, Except.ok b =>
    if h : a = b then isTrue (by rw [h]) else isFalse (by intro hc; cases hc; exact h rfl)
  | Except.error a, Except.error b =>
    if h : a = b then isTrue (by rw [h]) else isFalse (by intro hc; cases hc; exact h rfl)
  | Except.ok _, Except.error _ => isFalse (by intro hc; cases hc)
  | Except.error _, Except.ok _ => isFalse (by intro hc; cases hc)

/-- One row of the `template_snapshots` table.  Descriptive metadata
columns (description, category, tags, languages, image, status,
is_approved, is_verified, template_code) are copied verbatim from the
fetched record and never read back by any computation in the script,
so they are omitted from the model.  Counter columns are modelled as
integers (the script itself treats them as numbers: it divides,
compares and subtracts them). -/
structure SnapRow where
  collected_at : Int
  template_id : String
  template_name : String
  health : Int
  projects : Int
  active_projects : Int
  recent_projects : Int
  total_payout : Int
  retention_rate : ℚ
  revenue_per_active : Int
  growth_momentum : ℚ
  deriving DecidableEq

/-- The 24-hour horizon, in seconds (`INTERVAL '24 hours'`). -/
def hours24 : Int := 86400

/-- The 7-day horizon, in seconds (`INTERVAL '7 days'`). -/
def days7 : Int := 604800

/-- The 30-day horizon, in seconds (`INTERVAL '30 days'`). -/
def days30 : Int := 2592000

/-- `ORDER BY collected_at DESC LIMIT 1`: of two candidate rows, keep
the one collected later. -/
def laterOf (a b : SnapRow) : SnapRow :=
  if b.collected_at ≤ a.collected_at then a else b

/-- The row of a result set with the greatest `collected_at`
(`ORDER BY collected_at DESC LIMIT 1`); `none` on an empty set. -/
def latest : List SnapRow → Option SnapRow
  | [] => none
  | r :: rs =>
    match latest rs with
    | none => some r
    | some m => some (laterOf r m)

/-- The `prev_24h`/`prev_7d`/`prev_30d` lateral subquery of
`calculate_derived_metrics`:

    SELECT total_payout, active_projects FROM template_snapshots
    WHERE template_id = current.template_id
      AND collected_at >= t - INTERVAL H AND collected_at < t
    ORDER BY collected_at DESC LIMIT 1
-/
def prev_snapshot (tbl : List SnapRow) (tid : String) (t H : Int) : Option SnapRow :=
  latest (tbl.filter (fun s =>
    decide (s.template_id = tid ∧ t - H ≤ s.collected_at ∧ s.collected_at < t)))

/-- One row of the `template_metrics_derived` table. -/
structure DerivedRow where
  calculated_at : Int
  template_id : String
  template_name : String
  revenue_growth_24h : Int
  revenue_growth_7d : Int
  revenue_growth_30d : Int
  active_projects_change_24h : Int
  active_projects_change_7d : Int
  active_projects_change_30d : Int
  avg_daily_revenue_7d : ℚ
  avg_daily_revenue_30d : ℚ
  profitability_score : ℚ
  deriving DecidableEq

/-- `COALESCE(prev.total_payout, current.total_payout)`. -/
def coalescePayout (prev : Option SnapRow) (cur : SnapRow) : Int :=
  match prev with
  | some p => p.total_payout
  | none => cur.total_payout

/-- `COALESCE(prev.active_projects, current.active_projects)`. -/
def coalesceActive (prev : Option SnapRow) (cur : SnapRow) : Int :=
  match prev with
  | some p => p.active_projects
  | none => cur.active_projects

/-- `CASE WHEN prev.total_payout IS NOT NULL THEN
(current.total_payout - prev.total_payout) / days ELSE 0 END`.
Modelled from the spec: `schema.sql` is not under `src/`, so the
numeric type of the payout columns (hence the SQL division semantics)
is not in the source; per the spec the division is real-valued, so it
is modelled as exact division in `ℚ`. -/
def avgDaily (prev : Option SnapRow) (cur : SnapRow) (days : ℚ) : ℚ :=
  match prev with
  | some p => ((cur.total_payout - p.total_payout : Int) : ℚ) / days
  | none => 0

/-- The row that the `INSERT ... SELECT` of `calculate_derived_metrics`
produces for one current snapshot `cur` at run timestamp `t`.  The
stored function `calculate_profitability_score` is an external
collaborator and is passed in as `score`. -/
def derivedRow (score : Int → Int → ℚ → Int → ℚ) (tbl : List SnapRow) (t : Int)
    (cur : SnapRow) : DerivedRow :=
  let p24 := prev_snapshot tbl cur.template_id t hours24
  let p7 := prev_snapshot tbl cur.template_id t days7
  let p30 := prev_snapshot tbl cur.template_id t days30
  { calculated_at := t
    template_id := cur.template_id
    template_name := cur.template_name
    revenue_growth_24h := cur.total_payout - coalescePayout p24 cur
    revenue_growth_7d := cur.total_payout - coalescePayout p7 cur
    revenue_growth_30d := cur.total_payout - coalescePayout p30 cur
    active_projects_change_24h := cur.active_projects - coalesceActive p24 cur
    active_projects_change_7d := cur.active_projects - coalesceActive p7 cur
    active_projects_change_30d := cur.active_projects - coalesceActive p30 cur
    avg_daily_revenue_7d := avgDaily p7 cur 7
    avg_daily_revenue_30d := avgDaily p30 cur 30
    profitability_score :=
      score cur.total_payout (cur.total_payout - coalescePayout p30 cur)
        cur.retention_rate cur.health }

/-- The full result set of the `INSERT ... SELECT`: one derived row for
every snapshot whose `collected_at` equals the run timestamp
(`WHERE current.collected_at = t`). -/
def derived_rows (score : Int → Int → ℚ → Int → ℚ) (tbl : List SnapRow) (t : Int) :
    List DerivedRow :=
  (tbl.filter (fun s => decide (s.collected_at = t))).map (derivedRow score tbl t)

/-! ### The Snapshot Writer (`insert_template_snapshots`) -/

/-- A counter field of a fetched template record.  The GraphQL value
may be absent from the dict (`none`), present but `null`
(`some none`), or an integer (`some (some n)`). -/
abbrev Counter := Option (Option Int)

/-- A fetched template record (the fields the writer computes with;
the descriptive metadata fields are copied through unchanged and
omitted, see `SnapRow`). -/
structure TemplateRecord where
  id : String
  name : String
  health : Int
  projects : Counter
  activeProjects : Counter
  recentProjects : Counter
  totalPayout : Counter
  deriving DecidableEq

/-- `template.get(key, 0)`: an absent key defaults to `0`; a key that
is present keeps its value — including `null` (Python `None`). -/
def getCounter : Counter → Option Int
  | none => some 0
  | some v => v

/-- `value > 0` in Python: comparing `None` with an integer raises
`TypeError`. -/
def pyGtZero : Option Int → Except String Bool
  | none => Except.error "TypeError: NoneType comparison"
  | some n => Except.ok (decide (0 < n))

/-- `num / den * 100` in Python (true division): raises `TypeError`
when either operand is `None`. -/
def ratio100 (num den : Option Int) : Except String ℚ :=
  match num, den with
  | some n, some d => Except.ok ((n : ℚ) / (d : ℚ) * 100)
  | _, _ => Except.error "TypeError: NoneType arithmetic"

/-- `num // den` in Python (integer floor division): raises `TypeError`
when either operand is `None`. -/
def floordiv (num den : Option Int) : Except String Int :=
  match num, den with
  | some n, some d => Except.ok (Int.fdiv n d)
  | _, _ => Except.error "TypeError: NoneType arithmetic"

/-- An integer destined for a counter column of the row tuple.
Modelled from the spec: `schema.sql` is not under `src/`; the spec's
data model makes the counter columns integer counts, so a `null`
value in one of them makes the database reject the row (the raise is
then caught and rolled back like any other failure of the step). -/
def pyIntColumn : Option Int → Except String Int
  | none => Except.error "null value in integer column"
  | some n => Except.ok n

/-- Round a rational to the nearest integer, halves to the even
neighbour (Python `round`), computed on the reduced
numerator/denominator pair. -/
def roundHalfToEven (q : ℚ) : Int :=
  let n := q.num
  let d := (q.den : Int)
  let f := Int.fdiv n d
  let r := n - f * d
  if 2 * r < d then f
  else if d < 2 * r then f + 1
  else if f % 2 = 0 then f else f + 1

/-- `round(x, 2)` on the exact rational value: round half to even at
two decimal places (Python float artifacts are not modelled). -/
def round2 (q : ℚ) : ℚ := (roundHalfToEven (q * 100) : ℚ) / 100

/-- The body of the per-template loop of `insert_template_snapshots`:
default absent counters to 0, compute the three derived ratios
(guarded by `projects > 0` / `active_projects > 0`), round the
percentage ratios to two decimals, and build the row tuple.  Any
Python `TypeError` (or a `null` landing in an integer column) makes
the whole step fail. -/
def computeRow (t : Int) (r : TemplateRecord) : Except String SnapRow := do
  let projects := getCounter r.projects
  let active := getCounter r.activeProjects
  let recent := getCounter r.recentProjects
  let payout := getCounter r.totalPayout
  let retention_rate ← do
    if (← pyGtZero projects) then ratio100 active projects else pure 0
  let revenue_per_active ← do
    if (← pyGtZero active) then floordiv payout active else pure 0
  let growth_momentum ← do
    if (← pyGtZero active) then ratio100 recent active else pure 0
  let p ← pyIntColumn projects
  let a ← pyIntColumn active
  let rc ← pyIntColumn recent
  let pay ← pyIntColumn payout
  pure { collected_at := t
         template_id := r.id
         template_name := r.name
         health := r.health
         projects := p
         active_projects := a
         recent_projects := rc
         total_payout := pay
         retention_rate := round2 retention_rate
         revenue_per_active := revenue_per_active
         growth_momentum := round2 growth_momentum }

/-- The conflict target of the bulk insert: `(collected_at, template_id)`. -/
def snapKey (r : SnapRow) : Int × String := (r.collected_at, r.template_id)

/-- Whether the table already holds a row with the given key. -/
def hasKey (tbl : List SnapRow) (k : Int × String) : Bool :=
  tbl.any (fun r => decide (snapKey r = k))

/-- `INSERT ... VALUES %s ON CONFLICT (collected_at, template_id) DO
NOTHING`: each candidate row is appended unless a row with its key is
already there (also counting rows inserted earlier in the same
command). -/
def insertRows (tbl : List SnapRow) (rows : List SnapRow) : List SnapRow :=
  rows.foldl (fun acc r => if hasKey acc (snapKey r) then acc else acc ++ [r]) tbl

/-- The outcome of a transaction body: the new table contents, or a
raised exception. -/
inductive TxResult (ρ : Type) where
  | ok (r : ρ)
  | err
  deriving DecidableEq

/-- The `try: ...; conn.commit(); return True / except: conn.rollback();
return False` scope every write step of `MetricsDatabase` is wrapped
in.  On success the body's result is committed; on a raise the
committed state is kept unchanged. -/
def runTransaction {ρ : Type} (committed : ρ) (body : ρ → TxResult ρ) : ρ × Bool :=
  match body committed with
  | TxResult.ok r => (r, true)
  | TxResult.err => (committed, false)

/-- One row of the `earnings_snapshots` table. -/
structure EarningsRow where
  collected_at : Int
  lifetime_earnings : Int
  lifetime_cash_withdrawals : Int
  lifetime_credit_withdrawals : Int
  available_balance : Int
  template_earnings_lifetime : Int
  template_earnings_30d : Int
  referral_earnings_lifetime : Int
  referral_earnings_30d : Int
  bounty_earnings_lifetime : Int
  bounty_earnings_30d : Int
  thread_earnings_lifetime : Int
  thread_earnings_30d : Int
  deriving DecidableEq

/-- The fetched earnings record: a dict of numeric fields. -/
abbrev EarningsDict := List (String × Int)

/-- `earnings_data.get(key, 0)`. -/
def dget (d : EarningsDict) (k : String) : Int :=
  match d.find? (fun kv => kv.1 == k) with
  | some kv => kv.2
  | none => 0

/-- The parameter tuple of the `INSERT INTO earnings_snapshots`
statement. -/
def mkEarningsRow (d : EarningsDict) (t : Int) : EarningsRow :=
  { collected_at := t
    lifetime_earnings := dget d "lifetimeEarnings"
    lifetime_cash_withdrawals := dget d "lifetimeCashWithdrawals"
    lifetime_credit_withdrawals := dget d "lifetimeCreditWithdrawals"
    available_balance := dget d "availableBalance"
    template_earnings_lifetime := dget d "templateEarningsLifetime"
    template_earnings_30d := dget d "templateEarnings30d"
    referral_earnings_lifetime := dget d "referralEarningsLifetime"
    referral_earnings_30d := dget d "referralEarnings30d"
    bounty_earnings_lifetime := dget d "bountyEarningsLifetime"
    bounty_earnings_30d := dget d "bountyEarnings30d"
    thread_earnings_lifetime := dget d "threadEarningsLifetime"
    thread_earnings_30d := dget d "threadEarnings30d" }

/-- `MetricsDatabase.insert_earnings_snapshot`: insert one row inside a
commit/rollback scope.  `dbFail` models the database raising on the
insert (connection loss, constraint violation, ...). -/
def insert_earnings_snapshot (tbl : List EarningsRow) (d : EarningsDict) (t : Int)
    (dbFail : Bool) : List EarningsRow × Bool :=
  runTransaction tbl (fun cur =>
    if dbFail then TxResult.err else TxResult.ok (cur ++ [mkEarningsRow d t]))

/-- `MetricsDatabase.insert_template_snapshots`: build all row tuples
(any `TypeError` in the loop aborts the step), then one bulk insert
with conflict target `(collected_at, template_id)` resolved as
do-nothing, inside a commit/rollback scope. -/
def insert_template_snapshots (tbl : List SnapRow) (records : List TemplateRecord)
    (t : Int) (dbFail : Bool) : List SnapRow × Bool :=
  runTransaction tbl (fun cur =>
    match records.mapM (computeRow t) with
    | Except.error _ => TxResult.err
    | Except.ok rows => if dbFail then TxResult.err else TxResult.ok (insertRows cur rows))

/-- `MetricsDatabase.calculate_derived_metrics`: append one derived row
per current snapshot (plain `INSERT ... SELECT`, no conflict
handling), inside a commit/rollback scope. -/
def calculate_derived_metrics (score : Int → Int → ℚ → Int → ℚ)
    (derivedTbl : List DerivedRow) (snapTbl : List SnapRow) (t : Int)
    (dbFail : Bool) : List DerivedRow × Bool :=
  runTransaction derivedTbl (fun cur =>
    if dbFail then TxResult.err else TxResult.ok (cur ++ derived_rows score snapTbl t))

/-! ### The Metrics Client (`RailwayAPIClient.execute_query`) -/

/-- The observable outcome of the single HTTP POST: a transport error
(`requests.exceptions.RequestException`), or a response with a status
code, an optional top-level `errors` list, and an optional non-null
top-level `data` value. -/
inductive ApiResponse (α : Type) where
  | netError : ApiResponse α
  | ok (status : Nat) (errorsKey : Option (List String)) (dataVal : Option α) : ApiResponse α
  deriving DecidableEq

/-- The status code of a response (0 for a transport error). -/
def respStatus {α : Type} : ApiResponse α → Nat
  | ApiResponse.netError => 0
  | ApiResponse.ok s _ _ => s

/-- `RailwayAPIClient.execute_query`: one POST, no retry;
`raise_for_status()` raises on 4xx/5xx; a response whose envelope has
an `errors` key (`"errors" in data`) yields `None`; otherwise the
result is `data.get("data")`. -/
def execute_query {α : Type} : ApiResponse α → Option α
  | ApiResponse.netError => none
  | ApiResponse.ok status errorsKey dataVal =>
    if 400 ≤ status ∧ status < 600 then none
    else
      match errorsKey with
      | some _ => none
      | none => dataVal

/-- The failure condition exactly as the claim states it (for
comparison with `execute_query`): a transport error, a status ≥ 400,
or a NON-EMPTY top-level error list. -/
def specClaimsFetchFailure {α : Type} : ApiResponse α → Prop
  | ApiResponse.netError => True
  | ApiResponse.ok status errorsKey _ =>
    400 ≤ status ∨ ∃ l, errorsKey = some l ∧ l ≠ []

/-- The failure condition `execute_query` actually implements: a
transport error, a status ≥ 400, a present `errors` key (empty list
included), or an absent/null `data` value. -/
def queryFails {α : Type} : ApiResponse α → Prop
  | ApiResponse.netError => True
  | ApiResponse.ok status errorsKey dataVal =>
    400 ≤ status ∨ errorsKey ≠ none ∨ dataVal = none

/-! ### The run pipeline (`fetch_railway_metrics`, `persist_metrics`) -/

/-- The three tables of the persistent store the collector writes. -/
structure Db where
  earnings : List EarningsRow
  template_snapshots : List SnapRow
  derived : List DerivedRow
  deriving DecidableEq

/-- `persist_metrics`: run the three write steps in order.  A failed
earnings or template write calls `sys.exit(1)`; a failed
derived-metrics step only logs a warning.  Returns the store contents
and the process exit code. -/
def persist_metrics (score : Int → Int → ℚ → Int → ℚ) (db : Db) (d : EarningsDict)
    (records : List TemplateRecord) (t : Int) (fE fT fD : Bool) : Db × Nat :=
  let e := insert_earnings_snapshot db.earnings d t fE
  if e.2 = false then ({ db with earnings := e.1 }, 1)
  else
    let s := insert_template_snapshots db.template_snapshots records t fT
    if s.2 = false then ({ db with earnings := e.1, template_snapshots := s.1 }, 1)
    else
      let dv := calculate_derived_metrics score db.derived s.1 t fD
      (⟨e.1, s.1, dv.1⟩, 0)

/-- `fetch_railway_metrics`: `sys.exit(1)` (modelled as `none`) when
the earnings record is `None` or falsy (empty dict), or when the
template list is `None` or falsy (empty list). -/
def fetch_railway_metrics (earnings : Option EarningsDict)
    (templates : Option (List TemplateRecord)) :
    Option (EarningsDict × List TemplateRecord) :=
  match earnings with
  | none => none
  | some e =>
    if e = [] then none
    else
      match templates with
      | none => none
      | some ts => if ts = [] then none else some (e, ts)

/-- Steps 3 and 4 of `main`: fetch, then persist; a fetch failure exits
with code 1 before any persistence step runs. -/
def run_pipeline (score : Int → Int → ℚ → Int → ℚ) (db : Db)
    (earnings : Option EarningsDict) (templates : Option (List TemplateRecord))
    (t : Int) (fE fT fD : Bool) : Db × Nat :=
  match fetch_railway_metrics earnings templates with
  | none => (db, 1)
  | some (e, ts) => persist_metrics score db e ts t fE fT fD

/-- A snapshot row with the fields the trend calculator reads, for
concrete instances. -/
def mkSnap (ts : Int) (tid : String) (payout active : Int) : SnapRow :=
  { collected_at := ts
    template_id := tid
    template_name := tid
    health := 100
    projects := 10
    active_projects := active
    recent_projects := 1
    total_payout := payout
    retention_rate := 0
    revenue_per_active := 0
    growth_momentum := 0 }

/-- A trivial stand-in for the external stored scoring function. -/
def score0 : Int → Int → ℚ → Int → ℚ := fun _ _ _ _ => 0

/-- A concrete snapshot table for the window-selection instance: for
entity "a" at run time 1000000 and the 24h horizon, the rows at
913600 (= 1000000 − 86400, on the included boundary) and 999000 are
in the window; the row at 1000000 (the current one) and the row at
900000 are not. -/
def tblC1 : List SnapRow :=
  [mkSnap 913600 "a" 100 1, mkSnap 999000 "a" 400 2,
   mkSnap 1000000 "a" 500 3, mkSnap 900000 "a" 50 1]

/-- A concrete table realizing the spec's worked example: current
payout 500, payout 300 exactly 7 days (604800 s) earlier. -/
def tblC3 : List SnapRow := [mkSnap 1000000 "a" 500 5, mkSnap 395200 "a" 300 4]

/-- A concrete fetched record with all counters present. -/
def recC4 : TemplateRecord :=
  { id := "a", name := "A", health := 100,
    projects := some (some 10), activeProjects := some (some 4),
    recentProjects := some (some 2), totalPayout := some (some 1001) }

/-- A concrete fetched record with all counters present and zero. -/
def recC5 : TemplateRecord :=
  { id := "z", name := "Z", health := 100,
    projects := some (some 0), activeProjects := some (some 0),
    recentProjects := some (some 0), totalPayout := some (some 0) }

/-- The snapshot table left by a first successful write of `recC5` at
run time 5. -/
def tblC5 : List SnapRow := (insert_template_snapshots [] [recC5] 5 false).1

/-- A fetched record whose `projects` counter is present but `null`. -/
def recNullC6 : TemplateRecord :=
  { id := "n", name := "N", health := 100,
    projects := some none, activeProjects := some (some 0),
    recentProjects := some (some 0), totalPayout := some (some 0) }

/-- A record with a mixed counter configuration: `projects` and
`totalPayout` absent, `activeProjects` and `recentProjects` present
as integers. -/
def recMixedC6 : TemplateRecord :=
  { id := "m", name := "M", health := 100,
    projects := none, activeProjects := some (some 4),
    recentProjects := some (some 2), totalPayout := none }

/-- The record with every absent counter field replaced by an explicit
0 and every present counter kept as it is (`null` included). -/
def defaultAbsent (r : TemplateRecord) : TemplateRecord :=
  { r with
    projects := some (getCounter r.projects)
    activeProjects := some (getCounter r.activeProjects)
    recentProjects := some (getCounter r.recentProjects)
    totalPayout := some (getCounter r.totalPayout) }

/-- Whether none of the four counter fields of a record is a present
`null` (each is absent or an integer). -/
def noNullCounters (r : TemplateRecord) : Bool :=
  decide (r.projects ≠ some none ∧ r.activeProjects ≠ some none ∧
          r.recentProjects ≠ some none ∧ r.totalPayout ≠ some none)

/-! ### Theorems -/

theorem round2_zero : round2 0 = 0 := by
  norm_num [round2, roundHalfToEven]

theorem latest_mem {l : List SnapRow} : ∀ {m : SnapRow}, latest l = some m → m ∈ l := by
  induction l with
  | nil => intro m h; simp [latest] at h
  | cons r rs ih =>
    intro m h
    simp only [latest] at h
    cases hrs : latest rs with
    | none => rw [hrs] at h; simp at h; simp [h]
    | some m2 =>
      rw [hrs] at h
      simp only [Option.some.injEq] at h
      unfold laterOf at h
      by_cases hle : m2.collected_at ≤ r.collected_at
      · simp [hle] at h; simp [h]
      · simp [hle] at h
        right
        exact h ▸ ih hrs

theorem latest_ge {l : List SnapRow} :
    ∀ {m : SnapRow}, latest l = some m → ∀ x ∈ l, x.collected_at ≤ m.collected_at := by
  induction l with
  | nil => intro m h; simp [latest] at h
  | cons r rs ih =>
    intro m h x hx
    simp only [latest] at h
    cases hrs : latest rs with
    | none =>
      rw [hrs] at h
      simp only [Option.some.injEq] at h
      cases List.mem_cons.mp hx with
      | inl hxr => subst h; subst hxr; exact le_refl _
      | inr hxs =>
        cases rs with
        | nil => simp at hxs
        | cons a as => simp only [latest] at hrs; cases hlat : latest as <;> simp [hlat] at hrs
    | some m2 =>
      rw [hrs] at h
      simp only [Option.some.injEq] at h
      unfold laterOf at h
      by_cases hle : m2.collected_at ≤ r.collected_at
      · simp only [if_pos hle] at h
        subst h
        cases List.mem_cons.mp hx with
        | inl hxr => subst hxr; exact le_refl _
        | inr hxs => exact le_trans (ih hrs x hxs) hle
      · simp only [if_neg hle] at h
        subst h
        cases List.mem_cons.mp hx with
        | inl hxr => subst hxr; exact le_of_not_le hle
        | inr hxs => exact ih hrs x hxs

theorem latest_eq_none {l : List SnapRow} (h : latest l = none) : l = [] := by
  cases l with
  | nil => rfl
  | cons r rs => simp only [latest] at h; cases hrs : latest rs <;> simp [hrs] at h

/-- C1: for every entity and every horizon H ∈ {24h, 7d, 30d}, the
comparison snapshot `prev_H` is the snapshot of that entity with
maximum `collected_at` inside the half-open window [t − H, t): any
returned row lies in the window (so one exactly at t − H may be
returned and one exactly at t never is) and dominates every snapshot
of the entity in the window; and whenever some snapshot of the entity
lies in the window — including one exactly at t − H — a comparison
snapshot is found. -/
theorem prev_snapshot_is_max_in_window (tbl : List SnapRow) (tid : String) (t H : Int)
    (hH : H = hours24 ∨ H = days7 ∨ H = days30) :
    (∀ r, prev_snapshot tbl tid t H = some r →
        r ∈ tbl ∧ r.template_id = tid ∧ t - H ≤ r.collected_at ∧ r.collected_at < t ∧
        ∀ s ∈ tbl, s.template_id = tid → t - H ≤ s.collected_at → s.collected_at < t →
          s.collected_at ≤ r.collected_at)
    ∧ (∀ s ∈ tbl, s.template_id = tid → t - H ≤ s.collected_at → s.collected_at < t →
        prev_snapshot tbl tid t H ≠ none) := by
  clear hH
  constructor
  · intro r hr
    have hmem := latest_mem hr
    rw [List.mem_filter] at hmem
    obtain ⟨hmem, hprop⟩ := hmem
    rw [decide_eq_true_eq] at hprop
    refine ⟨hmem, hprop.1, hprop.2.1, hprop.2.2, ?_⟩
    intro s hs hstid hslo hshi
    apply latest_ge hr
    rw [List.mem_filter, decide_eq_true_eq]
    exact ⟨hs, hstid, hslo, hshi⟩
  · intro s hs hstid hslo hshi hnone
    have hempty := latest_eq_none hnone
    have : s ∈ tbl.filter (fun s =>
        decide (s.template_id = tid ∧ t - H ≤ s.collected_at ∧ s.collected_at < t)) := by
      rw [List.mem_filter, decide_eq_true_eq]
      exact ⟨hs, hstid, hslo, hshi⟩
    rw [hempty] at this
    simp at this

/-- C2: when a horizon has no prior snapshot in its window, the derived
row carries 0 for that horizon's revenue-growth delta and
active-projects change, and 0 for the corresponding rolling daily
average (7d and 30d); the row is always produced (`derivedRow` is a
total function into `DerivedRow`, so absence is never an error or a
null result). -/
theorem derived_cold_start_zero (score : Int → Int → ℚ → Int → ℚ)
    (tbl : List SnapRow) (t : Int) (cur : SnapRow) :
    (prev_snapshot tbl cur.template_id t hours24 = none →
        (derivedRow score tbl t cur).revenue_growth_24h = 0 ∧
        (derivedRow score tbl t cur).active_projects_change_24h = 0)
    ∧ (prev_snapshot tbl cur.template_id t days7 = none →
        (derivedRow score tbl t cur).revenue_growth_7d = 0 ∧
        (derivedRow score tbl t cur).active_projects_change_7d = 0 ∧
        (derivedRow score tbl t cur).avg_daily_revenue_7d = 0)
    ∧ (prev_snapshot tbl cur.template_id t days30 = none →
        (derivedRow score tbl t cur).revenue_growth_30d = 0 ∧
        (derivedRow score tbl t cur).active_projects_change_30d = 0 ∧
        (derivedRow score tbl t cur).avg_daily_revenue_30d = 0) := by
  refine ⟨fun h24 => ?_, fun h7 => ?_, fun h30 => ?_⟩ <;>
    simp [derivedRow, coalescePayout, coalesceActive, avgDaily, *]

/-- C3: when a prior snapshot is present in the 7d (resp. 30d) window,
the rolling daily average is the payout delta divided by 7 (resp. 30)
with real-valued division over `ℚ`. -/
theorem derived_avg_daily_real_division (score : Int → Int → ℚ → Int → ℚ)
    (tbl : List SnapRow) (t : Int) (cur : SnapRow) :
    (∀ p, prev_snapshot tbl cur.template_id t days7 = some p →
        (derivedRow score tbl t cur).avg_daily_revenue_7d =
          ((cur.total_payout - p.total_payout : Int) : ℚ) / 7)
    ∧ (∀ p, prev_snapshot tbl cur.template_id t days30 = some p →
        (derivedRow score tbl t cur).avg_daily_revenue_30d =
          ((cur.total_payout - p.total_payout : Int) : ℚ) / 30) := by
  refine ⟨fun p h7 => ?_, fun p h30 => ?_⟩ <;>
    simp [derivedRow, avgDaily, *]

/-- C1 witness: on `tblC1` at run time 1000000 with the 24h horizon,
the selected comparison snapshot is the one at 999000, which lies in
the half-open window. -/
theorem prev_snapshot_is_max_in_window_witness :
    mkSnap 999000 "a" 400 2 ∈ tblC1 ∧
    (mkSnap 999000 "a" 400 2).template_id = "a" ∧
    1000000 - hours24 ≤ (mkSnap 999000 "a" 400 2).collected_at ∧
    (mkSnap 999000 "a" 400 2).collected_at < 1000000 :=
  have h := (prev_snapshot_is_max_in_window tblC1 "a" 1000000 hours24 (Or.inl rfl)).1
    (mkSnap 999000 "a" 400 2) (by decide)
  ⟨h.1, h.2.1, h.2.2.1, h.2.2.2.1⟩

/-- C2 witness: an entity whose only snapshot is the current one gets
zero 7d growth, zero 7d active change and zero 7d daily average. -/
theorem derived_cold_start_zero_witness :
    (derivedRow score0 [mkSnap 0 "a" 500 5] 0 (mkSnap 0 "a" 500 5)).revenue_growth_7d = 0 ∧
    (derivedRow score0 [mkSnap 0 "a" 500 5] 0 (mkSnap 0 "a" 500 5)).active_projects_change_7d = 0 ∧
    (derivedRow score0 [mkSnap 0 "a" 500 5] 0 (mkSnap 0 "a" 500 5)).avg_daily_revenue_7d = 0 :=
  (derived_cold_start_zero score0 [mkSnap 0 "a" 500 5] 0 (mkSnap 0 "a" 500 5)).2.1 (by decide)

/-- C3 witness: with current payout 500 and a payout of 300 exactly 7
days earlier, the 7d daily average is 200/7 (not the integer 28), and
rounded to two decimals it is 28.57. -/
theorem derived_avg_daily_real_division_witness :
    (derivedRow score0 tblC3 1000000 (mkSnap 1000000 "a" 500 5)).avg_daily_revenue_7d
      = (200 : ℚ) / 7 ∧
    (200 : ℚ) / 7 ≠ 28 ∧
    round2 ((200 : ℚ) / 7) = 2857 / 100 := by
  have h := (derived_avg_daily_real_division score0 tblC3 1000000
    (mkSnap 1000000 "a" 500 5)).1 (mkSnap 395200 "a" 300 4) (by decide)
  refine ⟨?_, by norm_num, ?_⟩
  · rw [h]
    norm_num [mkSnap]
  · have hf : Int.fdiv 20000 7 = 2857 := by decide
    norm_num [round2, roundHalfToEven, hf]

/-- C4: for every record whose four counters resolve to integers
(absent ones defaulting to 0), the row built by the Snapshot Writer
stores retention rate = active/total × 100 rounded to two decimals
(exactly 0 when total = 0), revenue-per-active = payout floor-divided
by active (exactly 0 when active = 0), growth momentum =
recent/active × 100 rounded to two decimals (exactly 0 when
active = 0), and the computation never raises a division error. -/
theorem insert_template_snapshots_ratios (rec : TemplateRecord) (t : Int) (p a rc pay : Int)
    (hp : getCounter rec.projects = some p) (ha : getCounter rec.activeProjects = some a)
    (hr : getCounter rec.recentProjects = some rc) (hpay : getCounter rec.totalPayout = some pay)
    (hp0 : 0 ≤ p) (ha0 : 0 ≤ a) :
    computeRow t rec = Except.ok
      { collected_at := t, template_id := rec.id, template_name := rec.name,
        health := rec.health, projects := p, active_projects := a,
        recent_projects := rc, total_payout := pay,
        retention_rate := if p = 0 then 0 else round2 ((a : ℚ) / (p : ℚ) * 100),
        revenue_per_active := if a = 0 then 0 else Int.fdiv pay a,
        growth_momentum := if a = 0 then 0 else round2 ((rc : ℚ) / (a : ℚ) * 100) } := by
  unfold computeRow
  rw [hp, ha, hr, hpay]
  by_cases hpz : p = 0
  · by_cases haz : a = 0
    · subst hpz haz
      simp [pyGtZero, ratio100, floordiv, pyIntColumn, bind, Except.bind, pure, Except.pure,
        round2_zero]
    · have h0a : (0 < a) = True := by simp; omega
      subst hpz
      simp [pyGtZero, ratio100, floordiv, pyIntColumn, bind, Except.bind, pure, Except.pure,
        h0a, haz, round2_zero]
  · have h0p : (0 < p) = True := by simp; omega
    by_cases haz : a = 0
    · subst haz
      simp [pyGtZero, ratio100, floordiv, pyIntColumn, bind, Except.bind, pure, Except.pure,
        h0p, hpz, round2_zero]
    · have h0a : (0 < a) = True := by simp; omega
      simp [pyGtZero, ratio100, floordiv, pyIntColumn, bind, Except.bind, pure, Except.pure,
        h0p, h0a, hpz, haz]

/-- C4 witness: the concrete record with 10 projects, 4 active, 2
recent, payout 1001 stores retention 40%, revenue-per-active 250
(floor of 1001/4) and momentum 50%. -/
theorem insert_template_snapshots_ratios_witness :
    computeRow 7 recC4 = Except.ok
      { collected_at := 7, template_id := "a", template_name := "A",
        health := 100, projects := 10, active_projects := 4,
        recent_projects := 2, total_payout := 1001,
        retention_rate := if (10 : Int) = 0 then 0
          else round2 (((4 : Int) : ℚ) / ((10 : Int) : ℚ) * 100),
        revenue_per_active := if (4 : Int) = 0 then 0 else Int.fdiv 1001 4,
        growth_momentum := if (4 : Int) = 0 then 0
          else round2 (((2 : Int) : ℚ) / ((4 : Int) : ℚ) * 100) } :=
  insert_template_snapshots_ratios recC4 7 10 4 2 1001 rfl rfl rfl rfl
    (by decide) (by decide)

theorem hasKey_append {tbl : List SnapRow} {k : Int × String} (r : SnapRow)
    (h : hasKey tbl k = true) : hasKey (tbl ++ [r]) k = true := by
  simp only [hasKey, List.any_append] at *
  simp [h]

theorem hasKey_insertRows {tbl : List SnapRow} {k : Int × String} (rows : List SnapRow)
    (h : hasKey tbl k = true) : hasKey (insertRows tbl rows) k = true := by
  induction rows generalizing tbl with
  | nil => simpa [insertRows] using h
  | cons r rs ih =>
    simp only [insertRows, List.foldl_cons]
    by_cases hk : hasKey tbl (snapKey r) = true
    · simp only [if_pos hk]
      exact ih h
    · simp only [if_neg hk]
      exact ih (hasKey_append r h)

theorem insertRows_hasKey_all (tbl : List SnapRow) (rows : List SnapRow) :
    ∀ r ∈ rows, hasKey (insertRows tbl rows) (snapKey r) = true := by
  induction rows generalizing tbl with
  | nil => intro r hr; simp at hr
  | cons r rs ih =>
    intro x hx
    simp only [insertRows, List.foldl_cons]
    cases List.mem_cons.mp hx with
    | inl hxr =>
      subst hxr
      by_cases hk : hasKey tbl (snapKey x) = true
      · simp only [if_pos hk]
        exact hasKey_insertRows rs hk
      · simp only [if_neg hk]
        have : hasKey (tbl ++ [x]) (snapKey x) = true := by
          simp [hasKey]
        exact hasKey_insertRows rs this
    | inr hxs =>
      by_cases hk : hasKey tbl (snapKey r) = true
      · simp only [if_pos hk]
        exact ih tbl x hxs
      · simp only [if_neg hk]
        exact ih (tbl ++ [r]) x hxs

theorem insertRows_noop {tbl : List SnapRow} {rows : List SnapRow}
    (h : ∀ r ∈ rows, hasKey tbl (snapKey r) = true) : insertRows tbl rows = tbl := by
  induction rows with
  | nil => rfl
  | cons r rs ih =>
    simp only [insertRows, List.foldl_cons]
    rw [if_pos (h r (List.mem_cons_self r rs))]
    exact ih (fun x hx => h x (List.mem_cons_of_mem r hx))

/-- C5: writing the same records at the same timestamp a second time
leaves the template-snapshot table exactly as the first call left it
(in particular the row count is unchanged): every row the second call
builds carries a key `(collected_at, template_id)` already present,
so the conflict-ignoring bulk insert is a no-op. -/
theorem insert_template_snapshots_idempotent (tbl tbl' : List SnapRow)
    (records : List TemplateRecord) (t : Int)
    (h : insert_template_snapshots tbl records t false = (tbl', true)) :
    insert_template_snapshots tbl' records t false = (tbl', true) := by
  unfold insert_template_snapshots runTransaction at h ⊢
  cases hm : records.mapM (computeRow t) with
  | error e => rw [hm] at h; simp at h
  | ok rows =>
    rw [hm] at h
    simp only [Bool.false_eq_true, if_false, Prod.mk.injEq] at h
    obtain ⟨h1, -⟩ := h
    simp only [Bool.false_eq_true, if_false, Prod.mk.injEq]
    constructor
    · rw [← h1]
      exact insertRows_noop (fun r hr => insertRows_hasKey_all tbl rows r hr)
    · trivial

/-- C5 witness: re-running the write of `recC5` at timestamp 5 returns
the table of the first run unchanged. -/
theorem insert_template_snapshots_idempotent_witness :
    insert_template_snapshots tblC5 [recC5] 5 false = (tblC5, true) :=
  insert_template_snapshots_idempotent [] tblC5 [recC5] 5
    (Prod.ext rfl (by decide))

/-- C6 counterexample: a record whose `projects` counter is present
but `null` is NOT treated as 0 — the write step fails (rolls back and
returns failure), while the same record with the counter equal to 0
succeeds.  This refutes the claim that a null counter is defaulted to
0 and the write succeeds. -/
theorem null_counter_not_defaulted_cex :
    insert_template_snapshots [] [recNullC6] 0 false = ([], false) ∧
    (insert_template_snapshots [] [recC5] 0 false).2 = true := by
  constructor
  · decide
  · decide

theorem getCounter_of_not_null {c : Counter} (h : c ≠ some none) :
    ∃ n, getCounter c = some n := by
  cases c with
  | none => exact ⟨0, rfl⟩
  | some v =>
    cases v with
    | none => exact absurd rfl h
    | some n => exact ⟨n, rfl⟩

theorem computeRow_isOk (t : Int) (r : TemplateRecord) (p a rc pay : Int)
    (hp : getCounter r.projects = some p) (ha : getCounter r.activeProjects = some a)
    (hr : getCounter r.recentProjects = some rc)
    (hpay : getCounter r.totalPayout = some pay) :
    ∃ row, computeRow t r = Except.ok row := by
  unfold computeRow
  rw [hp, ha, hr, hpay]
  by_cases h1 : 0 < p <;> by_cases h2 : 0 < a <;>
    simp [pyGtZero, ratio100, floordiv, pyIntColumn, bind, Except.bind, pure, Except.pure,
      h1, h2]

theorem mapM_computeRow_ok (t : Int) (records : List TemplateRecord)
    (h : ∀ r ∈ records, ∃ row, computeRow t r = Except.ok row) :
    ∃ rows, records.mapM (computeRow t) = Except.ok rows := by
  induction records with
  | nil => exact ⟨[], rfl⟩
  | cons r rs ih =>
    obtain ⟨row, hrow⟩ := h r (List.mem_cons_self r rs)
    obtain ⟨rows, hrows⟩ := ih (fun x hx => h x (List.mem_cons_of_mem r hx))
    refine ⟨row :: rows, ?_⟩
    rw [List.mapM_cons, hrow, hrows]
    rfl

theorem mapM_defaultAbsent (t : Int) (records : List TemplateRecord) :
    records.mapM (computeRow t) = (records.map defaultAbsent).mapM (computeRow t) := by
  induction records with
  | nil => rfl
  | cons r rs ih =>
    rw [List.map_cons, List.mapM_cons, List.mapM_cons, ih]
    rfl

/-- C6 (amended): for EVERY input template record — any mix of absent
and present counter fields — a counter that is absent is treated as 0
before the derived ratios are computed: the row built for a record
equals the row built after replacing each of its absent counters by
an explicit 0, the write step behaves identically on any batch after
that replacement, and the write succeeds on every batch whose
counters are all absent or integers; a counter that is present but
null is not defaulted (see the counterexample). -/
theorem absent_counters_default_to_zero (t : Int) (tbl : List SnapRow) (dbF : Bool)
    (records : List TemplateRecord) :
    (∀ r : TemplateRecord, computeRow t r = computeRow t (defaultAbsent r)) ∧
    insert_template_snapshots tbl records t dbF =
      insert_template_snapshots tbl (records.map defaultAbsent) t dbF ∧
    ((∀ r ∈ records, noNullCounters r = true) →
      (insert_template_snapshots tbl records t false).2 = true) := by
  refine ⟨fun r => rfl, ?_, ?_⟩
  · unfold insert_template_snapshots runTransaction
    rw [← mapM_defaultAbsent]
  · intro h
    have hall : ∀ r ∈ records, ∃ row, computeRow t r = Except.ok row := by
      intro r hrm
      have hn := h r hrm
      simp only [noNullCounters, decide_eq_true_eq] at hn
      obtain ⟨h1, h2, h3, h4⟩ := hn
      obtain ⟨p, hp⟩ := getCounter_of_not_null h1
      obtain ⟨a, ha⟩ := getCounter_of_not_null h2
      obtain ⟨rc, hrc⟩ := getCounter_of_not_null h3
      obtain ⟨pay, hpay⟩ := getCounter_of_not_null h4
      exact computeRow_isOk t r p a rc pay hp ha hrc hpay
    obtain ⟨rows, hrows⟩ := mapM_computeRow_ok t records hall
    unfold insert_template_snapshots runTransaction
    rw [hrows]
    rfl

/-- C6 witness: on the mixed record (projects and payout absent,
active and recent present), the computed row equals the one from the
0-defaulted record and the write succeeds. -/
theorem absent_counters_default_to_zero_witness :
    computeRow 3 recMixedC6 = computeRow 3 (defaultAbsent recMixedC6) ∧
    (insert_template_snapshots [] [recMixedC6] 3 false).2 = true :=
  have h := absent_counters_default_to_zero 3 [] false [recMixedC6]
  ⟨h.1 recMixedC6, h.2.2 (by decide)⟩

/-- C7 counterexample: a 200 response whose envelope carries an EMPTY
top-level error list is rejected by `execute_query` (it returns the
failure signal `none`), although the claim's failure condition does
not hold there — the claimed "if and only if" is false. -/
theorem execute_query_empty_errors_cex :
    execute_query (ApiResponse.ok 200 (some []) (some (0 : Int))) = none ∧
    ¬ specClaimsFetchFailure (ApiResponse.ok 200 (some ([] : List String)) (some (0 : Int))) := by
  constructor
  · rfl
  · intro h
    simp [specClaimsFetchFailure] at h

/-- C7 (amended): for every response with a real HTTP status
(< 600), the query fails — returns `none`, with no retry — iff the
request raised a transport error, the status is ≥ 400, the envelope
contains an `errors` key (empty list included), or the envelope has
no non-null `data` value; otherwise it returns the data payload. -/
theorem execute_query_failure_iff {α : Type} (resp : ApiResponse α)
    (hs : respStatus resp < 600) :
    (execute_query resp = none ↔ queryFails resp) ∧
    (∀ s ek dv, resp = ApiResponse.ok s ek dv → ¬ queryFails resp → execute_query resp = dv) := by
  cases resp with
  | netError => simp [execute_query, queryFails]
  | ok s ek dv =>
    simp only [respStatus] at hs
    constructor
    · by_cases h4 : 400 ≤ s
      · cases ek <;> simp [execute_query, queryFails, h4, hs]
      · cases ek <;> cases dv <;> simp [execute_query, queryFails, h4, hs]
    · intro s2 ek2 dv2 heq hnf
      cases heq
      simp only [queryFails, not_or] at hnf
      obtain ⟨h4, hek, hdv⟩ := hnf
      cases ek with
      | none => simp [execute_query, h4]
      | some l => simp at hek

/-- C7 witness: a 500 response is a failure. -/
theorem execute_query_failure_iff_witness :
    execute_query (ApiResponse.ok 500 (none : Option (List String)) (some (3 : Int))) = none :=
  ((execute_query_failure_iff (ApiResponse.ok 500 none (some (3 : Int))) (by decide)).1).mpr
    (Or.inl (by decide))

/-- C8: each write step is atomic.  When a step reports failure its
table is exactly the committed table from before the step; when it
reports success the whole batch is applied: the earnings step appends
its one row, the template step applies the conflict-ignoring bulk
insert of all computed rows, and the derived step appends all derived
rows. -/
theorem write_steps_atomic (score : Int → Int → ℚ → Int → ℚ) :
    (∀ (tbl : List EarningsRow) (d : EarningsDict) (t : Int) (f : Bool)
        (res : List EarningsRow × Bool),
        insert_earnings_snapshot tbl d t f = res →
          (res.2 = false → res.1 = tbl) ∧ (res.2 = true → res.1 = tbl ++ [mkEarningsRow d t]))
    ∧ (∀ (tbl : List SnapRow) (records : List TemplateRecord) (t : Int) (f : Bool)
        (res : List SnapRow × Bool),
        insert_template_snapshots tbl records t f = res →
          (res.2 = false → res.1 = tbl) ∧
          (res.2 = true → ∃ rows, records.mapM (computeRow t) = Except.ok rows ∧
            res.1 = insertRows tbl rows))
    ∧ (∀ (dtbl : List DerivedRow) (stbl : List SnapRow) (t : Int) (f : Bool)
        (res : List DerivedRow × Bool),
        calculate_derived_metrics score dtbl stbl t f = res →
          (res.2 = false → res.1 = dtbl) ∧
          (res.2 = true → res.1 = dtbl ++ derived_rows score stbl t)) := by
  refine ⟨?_, ?_, ?_⟩
  · intro tbl d t f res h
    cases f <;> simp [insert_earnings_snapshot, runTransaction] at h <;> subst h <;> simp
  · intro tbl records t f res h
    unfold insert_template_snapshots runTransaction at h
    cases hm : records.mapM (computeRow t) with
    | error e => rw [hm] at h; subst h; exact ⟨fun _ => rfl, by simp⟩
    | ok rows =>
      rw [hm] at h
      cases f with
      | false =>
        simp only [Bool.false_eq_true, if_false] at h
        subst h
        exact ⟨by simp, fun _ => ⟨rows, rfl, rfl⟩⟩
      | true =>
        simp only [if_true] at h
        subst h
        exact ⟨fun _ => rfl, by simp⟩
  · intro dtbl stbl t f res h
    cases f <;> simp [calculate_derived_metrics, runTransaction] at h <;> subst h <;> simp

/-- C8 witness: a failing earnings insert leaves the earnings table
unchanged. -/
theorem write_steps_atomic_witness :
    (insert_earnings_snapshot [] [] 0 true).1 = ([] : List EarningsRow) :=
  ((write_steps_atomic score0).1 [] [] 0 true (insert_earnings_snapshot [] [] 0 true) rfl).1
    (by decide)

/-- C9: the collector's persistence phase exits with code 0 iff the
earnings write and the template-snapshot write both succeed — the
derived-metrics step never influences the exit code — and when the
two snapshot writes succeed but the derived step fails, the run still
exits 0 and the derived table is left unchanged (warning only). -/
theorem persist_metrics_exit_code (score : Int → Int → ℚ → Int → ℚ) (db : Db)
    (d : EarningsDict) (records : List TemplateRecord) (t : Int) (fE fT fD : Bool) :
    ((persist_metrics score db d records t fE fT fD).2 = 0 ↔
      ((insert_earnings_snapshot db.earnings d t fE).2 = true ∧
       (insert_template_snapshots db.template_snapshots records t fT).2 = true))
    ∧ ((insert_earnings_snapshot db.earnings d t fE).2 = true →
       (insert_template_snapshots db.template_snapshots records t fT).2 = true →
       fD = true →
        (persist_metrics score db d records t fE fT fD).2 = 0 ∧
        (persist_metrics score db d records t fE fT fD).1.derived = db.derived) := by
  cases hE : (insert_earnings_snapshot db.earnings d t fE).2 with
  | false =>
    refine ⟨?_, ?_⟩
    · simp [persist_metrics, hE]
    · intro h1
      simp at h1
  | true =>
    cases hT : (insert_template_snapshots db.template_snapshots records t fT).2 with
    | false =>
      refine ⟨?_, ?_⟩
      · simp [persist_metrics, hE, hT]
      · intro h1 h2
        simp at h2
    | true =>
      refine ⟨?_, ?_⟩
      · simp [persist_metrics, hE, hT]
      · intro h1 h2 hfD
        subst hfD
        constructor
        · simp [persist_metrics, hE, hT]
        · simp [persist_metrics, hE, hT, calculate_derived_metrics, runTransaction]

/-- C9 witness: with both snapshot writes succeeding and the derived
step failing, the process exits 0. -/
theorem persist_metrics_exit_code_witness :
    (persist_metrics score0 ⟨[], [], []⟩ [] [] 0 false false true).2 = 0 :=
  ((persist_metrics_exit_code score0 ⟨[], [], []⟩ [] [] 0 false false true).2
    (by decide) (by decide) rfl).1

/-- C10: an upstream call that succeeds but yields an empty result —
an empty template list or an empty earnings record — aborts the run
with exit code 1 exactly like a fetch failure (`None`), before any
persistence step runs, leaving the store untouched; in particular a
workspace with zero templates never writes any snapshot. -/
theorem empty_fetch_aborts_run (score : Int → Int → ℚ → Int → ℚ) (db : Db)
    (earnings : Option EarningsDict) (templates : Option (List TemplateRecord))
    (t : Int) (fE fT fD : Bool) :
    (run_pipeline score db (some []) templates t fE fT fD = (db, 1))
    ∧ (run_pipeline score db earnings (some []) t fE fT fD = (db, 1))
    ∧ (run_pipeline score db none templates t fE fT fD = (db, 1))
    ∧ (run_pipeline score db earnings none t fE fT fD = (db, 1)) := by
  refine ⟨?_, ?_, ?_, ?_⟩
  · simp [run_pipeline, fetch_railway_metrics]
  · cases earnings with
    | none => simp [run_pipeline, fetch_railway_metrics]
    | some e =>
      by_cases he : e = [] <;> simp [run_pipeline, fetch_railway_metrics, he]
  · simp [run_pipeline, fetch_railway_metrics]
  · cases earnings with
    | none => simp [run_pipeline, fetch_railway_metrics]
    | some e =>
      by_cases he : e = [] <;> simp [run_pipeline, fetch_railway_metrics, he]

end Gauge
